import Mathlib

/-
  Shallow embedding of the PPE frame-analysis service (src/main.py).

  The service accepts an uploaded camera frame, runs an external detector,
  normalizes "missing PPE" detections, annotates the frame, and dispatches a
  cooldown-gated alert to a remote backend.  External collaborators (the YOLO
  detector, the cv2 image library, the `requests` HTTP client, the clock) are
  modelled as explicit inputs/oracles; the orchestration, filtering, payload
  construction, cooldown logic and cleanup are translated from the source.

  Times (time.time() values and ALERT_COOLDOWN_SECONDS) are modelled as exact
  integer seconds with Int subtraction, matching the source's real-number
  subtraction and comparison; detector confidences are exact rationals.
-/

namespace PpeFrames

/-- String constants used by the payload and by concrete test inputs. -/
def keyCameraId : String := "cameraId"

def keyStatus : String := "status"

def keyPpeDetections : String := "ppeDetections"

def keyDetections : String := "detections"

def statusNew : String := "new"

/-- CLASS_TO_PPE table from src/main.py lines 46-53: the negative-PPE
vocabulary, mapping detector class labels to the missing PPE kind. -/
def CLASS_TO_PPE : List (String × String) :=
  [(r"no-hardhat", r"hardhat"), (r"no-gloves", r"gloves"), (r"no-vest", r"vest"),
   (r"no-mask", r"mask"), (r"no-goggles", r"goggles"), (r"no-earplugs", r"earplugs")]

/-- PPE_COLORS table from src/main.py lines 55-62 (BGR color per PPE kind). -/
def PPE_COLORS : List (String × (Nat × Nat × Nat)) :=
  [(r"hardhat", (0, 0, 255)), (r"gloves", (0, 255, 0)), (r"vest", (255, 0, 0)),
   (r"mask", (0, 255, 255)), (r"goggles", (255, 0, 255)), (r"earplugs", (255, 165, 0))]

/-- Axis-aligned bounding box in (x, y, width, height) form, integer pixels,
as built by detect_missing_ppe (src/main.py lines 148-153). -/
structure BBox where
  x : Int
  y : Int
  width : Int
  height : Int
deriving DecidableEq

/-- Normalized missing-PPE detection record (src/main.py lines 145-154).
Confidence is a float in the source; modelled as an exact rational. -/
structure Detection where
  missingPpe : String
  confidence : ℚ
  bbox : BBox
deriving DecidableEq

/-- One raw detection as produced by the external detector: class label,
confidence and corner coordinates (after the source's int conversion of
box.xyxy, src/main.py line 144). -/
structure RawBox where
  clsName : String
  conf : ℚ
  x1 : Int
  y1 : Int
  x2 : Int
  y2 : Int
deriving DecidableEq

/-- Body of the loop of detect_missing_ppe (src/main.py lines 137-154): skip a
raw detection whose class is not in CLASS_TO_PPE; otherwise, if its confidence
meets the threshold, emit the normalized Detection; otherwise emit nothing. -/
def detectStep (threshold : ℚ) (b : RawBox) : Option Detection :=
  match CLASS_TO_PPE.lookup b.clsName with
  | none => none
  | some ppe =>
      if b.conf ≥ threshold then
        some { missingPpe := ppe, confidence := b.conf,
               bbox := { x := b.x1, y := b.y1, width := b.x2 - b.x1, height := b.y2 - b.y1 } }
      else none

/-- detect_missing_ppe (src/main.py lines 131-155): the detector's raw boxes
are supplied as input (the model.predict call is the external capability); the
adapter filters and normalizes them in order, appending to the result list. -/
def detect_missing_ppe (threshold : ℚ) (raws : List RawBox) : List Detection :=
  raws.filterMap (detectStep threshold)

/-- Spec-side filter, written from the spec's words for claim C7: a raw
detection passes when its class label is in the negative-PPE vocabulary and
its confidence is at least the configured threshold. -/
def specPasses (threshold : ℚ) (b : RawBox) : Bool :=
  (CLASS_TO_PPE.lookup b.clsName).isSome && decide (threshold ≤ b.conf)

/-- Spec-side normalization, written from the spec's words for claim C7: a
normalized Detection whose box is (x, y, width, height) with width = x2 - x1
and height = y2 - y1 derived from the detector's corner coordinates. -/
def specNormalize (b : RawBox) : Detection :=
  { missingPpe := (CLASS_TO_PPE.lookup b.clsName).getD "",
    confidence := b.conf,
    bbox := { x := b.x1, y := b.y1, width := b.x2 - b.x1, height := b.y2 - b.y1 } }

/-- One drawing command issued to the graphics library by draw_bounding_boxes.
The label text formatting (float with two decimals) is kept as the data that
determines it rather than as a rendered string. -/
inductive DrawCmd where
  | rect (x1 y1 x2 y2 : Int) (color : Nat × Nat × Nat)
  | labelBox (ppe : String) (conf : ℚ) (x1 y1 : Int) (color : Nat × Nat × Nat)
deriving DecidableEq

/-- Drawing commands for one detection (src/main.py lines 83-98): a colored
rectangle from (x, y) to (x + w, y + h) and a filled label box above it. -/
def drawDet (det : Detection) : List DrawCmd :=
  let color := (PPE_COLORS.lookup det.missingPpe).getD (255, 255, 255)
  let x1 := det.bbox.x
  let y1 := det.bbox.y
  let x2 := x1 + det.bbox.width
  let y2 := y1 + det.bbox.height
  [DrawCmd.rect x1 y1 x2 y2 color,
   DrawCmd.labelBox det.missingPpe det.confidence x1 y1 color]

/-- draw_bounding_boxes (src/main.py lines 76-102).  The cv2.imread decode
outcome is an oracle: on decode failure the function logs and returns the
input path unchanged with no drawing; on success it draws every detection and
writes a fresh annotated file, returning its path.  The result is the returned
path together with the drawing commands issued. -/
def draw_bounding_boxes (decodeOk : Bool) (imagePath newAnnotatedPath : String)
    (detections : List Detection) : String × List DrawCmd :=
  if decodeOk then
    (newAnnotatedPath, (detections.map drawDet).flatten)
  else
    (imagePath, [])

/-- Values appearing in the alert payload dictionary. -/
inductive JsonVal where
  | str (s : String)
  | detList (ds : List Detection)
deriving DecidableEq

/-- build_alert_payload (src/main.py lines 105-111): the payload dictionary in
insertion order. -/
def build_alert_payload (camera_id : String) (detections : List Detection) :
    List (String × JsonVal) :=
  [(keyCameraId, JsonVal.str camera_id), (keyStatus, JsonVal.str statusNew),
   (keyPpeDetections, JsonVal.detList detections)]

/-- Spec-side payload, written from the spec's words for claim C3:
the mapping with keys cameraId, status (fixed value new) and detections. -/
def specAlertPayload (camera_id : String) (detections : List Detection) :
    List (String × JsonVal) :=
  [(keyCameraId, JsonVal.str camera_id), (keyStatus, JsonVal.str statusNew),
   (keyDetections, JsonVal.detList detections)]

/-- Outcome of the outbound HTTP POST performed by `requests` inside
send_alert: either a RequestException is raised during the call (transport
error, connection failure, timeout, redirect exhaustion), or a final response
with the given status code is received. -/
inductive HttpOutcome where
  | transportError
  | response (status : Nat)
deriving DecidableEq

/-- Semantics of response.raise_for_status() from the `requests` library:
it raises HTTPError (a RequestException) exactly for status codes in
400..599, and returns normally otherwise. -/
def raiseForStatusRaises (status : Nat) : Bool :=
  decide (400 ≤ status) && decide (status < 600)

/-- send_alert (src/main.py lines 114-128): posts payload and image with a
15s timeout, calls raise_for_status, returns true if no exception; every
RequestException (transport error, timeout, or the HTTPError raised by
raise_for_status on a 4xx/5xx status) is caught and yields false.  No retry
is performed: the outcome of the single POST fully determines the result. -/
def send_alert (outcome : HttpOutcome) : Bool :=
  match outcome with
  | HttpOutcome.transportError => false
  | HttpOutcome.response status => !(raiseForStatusRaises status)

/-- Spec-side predicate for claim C6: the status code is a 2xx success. -/
def is2xx (status : Nat) : Bool :=
  decide (200 ≤ status) && decide (status < 300)

/-- The process-wide last_alert_time mapping (src/main.py line 38):
camera id to timestamp of the last successfully dispatched alert. -/
def CooldownMap : Type := String → Option Int

/-- Result of one handle_alert call: the returned boolean, whether send_alert
was invoked, the payload passed to it (if invoked), and the mapping after the
call. -/
structure AlertResult where
  sent : Bool
  dispatchCalled : Bool
  payloadSent : Option (List (String × JsonVal))
  state : CooldownMap

/-- handle_alert (src/main.py lines 158-170): read now from the clock, look up
the camera's last alert time with default 0, suppress when now - last_time <
ALERT_COOLDOWN_SECONDS; otherwise build the payload, dispatch it (outcome
supplied as an oracle), and record the timestamp only on success. -/
def handle_alert (cooldown : Int) (st : CooldownMap) (camera_id : String)
    (detections : List Detection) (now : Int) (dispatchOutcome : Bool) :
    AlertResult :=
  let last_time := (st camera_id).getD 0
  if now - last_time < cooldown then
    { sent := false, dispatchCalled := false, payloadSent := none, state := st }
  else
    let payload := build_alert_payload camera_id detections
    let success := dispatchOutcome
    if success then
      { sent := true, dispatchCalled := true, payloadSent := some payload,
        state := fun k => if k = camera_id then some now else st k }
    else
      { sent := false, dispatchCalled := true, payloadSent := some payload,
        state := st }

/-- The JSON body returned by the analyze endpoint (src/main.py lines
195-199). -/
structure FrameResponse where
  cameraId : String
  detections : List Detection
  alertSent : Bool
deriving DecidableEq

/-- Result of one analyze_frame request: the HTTP-level outcome (error when an
uncaught exception propagates out of the handler), the cooldown mapping after
the request, the files left on disk, and whether an outbound alert POST was
attempted. -/
structure FrameOutcome where
  response : Except Unit FrameResponse
  state : CooldownMap
  files : List String
  dispatchCalled : Bool

/-- os.remove within the cleanup loop: the path is removed from the set of
existing files (a no-op when absent, matching the os.path.exists guard). -/
def removeFile (fs : List String) (p : String) : List String :=
  fs.filter (fun q => q ≠ p)

/-- The cleanup loop of analyze_frame (src/main.py lines 191-193): remove the
temp file, then the annotated path when one was set. -/
def cleanupFiles (fs : List String) (tempFile : String)
    (annotatedPath : Option String) : List String :=
  match annotatedPath with
  | none => removeFile fs tempFile
  | some p => removeFile (removeFile fs tempFile) p

/-- analyze_frame (src/main.py lines 176-199).  Oracles: detectResult is the
outcome of detect_missing_ppe (error when the detector raises), decodeOk is
cv2.imread's success in draw_bounding_boxes, newAnnotatedPath the fresh
annotated file name, now the clock reading inside handle_alert, and
dispatchOutcome the result of the outbound POST.  The upload is first saved to
tempFile; when the detector raises, the exception propagates out of the
handler before the cleanup lines run, so the saved files persist. -/
def analyze_frame (cooldown : Int) (st : CooldownMap) (fs : List String)
    (cameraId tempFile : String) (detectResult : Except Unit (List Detection))
    (decodeOk : Bool) (newAnnotatedPath : String) (now : Int)
    (dispatchOutcome : Bool) : FrameOutcome :=
  let fs1 := tempFile :: fs
  match detectResult with
  | Except.error e =>
      { response := Except.error e, state := st, files := fs1,
        dispatchCalled := false }
  | Except.ok detections =>
      if detections.isEmpty then
        { response := Except.ok { cameraId := cameraId, detections := detections,
                                  alertSent := false },
          state := st, files := cleanupFiles fs1 tempFile none,
          dispatchCalled := false }
      else
        let annotatedPath :=
          (draw_bounding_boxes decodeOk tempFile newAnnotatedPath detections).1
        let fs2 := if decodeOk then annotatedPath :: fs1 else fs1
        let r := handle_alert cooldown st cameraId detections now dispatchOutcome
        { response := Except.ok { cameraId := cameraId, detections := detections,
                                  alertSent := r.sent },
          state := r.state, files := cleanupFiles fs2 tempFile (some annotatedPath),
          dispatchCalled := r.dispatchCalled }

/-- Empty cooldown mapping: no camera has a recorded alert. -/
def stEmpty : CooldownMap := fun _ => none

/-- Concrete camera identifiers and file names for closed instances. -/
def cam : String := "cam-1"

def camOther : String := "cam-2"

def tempJpg : String := "temp.jpg"

def annJpg : String := "annotated.jpg"

/-- A cooldown mapping where only cam has a recorded alert, at time 10. -/
def stOne : CooldownMap := fun k => if k = cam then some 10 else none

/-- A sample normalized detection for concrete instances. -/
def sampleDet : Detection :=
  { missingPpe := "hardhat", confidence := (3 : ℚ) / 4,
    bbox := { x := 5, y := 6, width := 20, height := 30 } }

/-- C1 counterexample: the claim asserts that a camera with no entry in the
cooldown mapping is always admitted regardless of now; but handle_alert reads
the missing entry as the default timestamp 0, so with now = 10 and the default
cooldown 30 the attempt for a never-alerted camera is suppressed (10 - 0 < 30)
and send_alert is never invoked. -/
theorem C1_counterexample :
    ¬ ((handle_alert 30 stEmpty cam [] 10 true).dispatchCalled = true) := by
  decide

/-- C1 (amended): the cooldown gate admits an alert attempt (invokes the
dispatcher) iff cooldown ≤ now - lastAlertTime, where a camera with no entry
in the mapping is treated as lastAlertTime 0; hence a camera with no prior
record is admitted exactly when now ≥ cooldown (always, for wall-clock now). -/
theorem C1_amended (cooldown : Int) (st : CooldownMap) (c : String)
    (ds : List Detection) (now : Int) (o : Bool) :
    (handle_alert cooldown st c ds now o).dispatchCalled = true ↔
      cooldown ≤ now - (st c).getD 0 := by
  unfold handle_alert
  by_cases h : now - (st c).getD 0 < cooldown
  · simp [h]
  · cases o <;> simp [h] <;> omega

/-- C2: if the dispatch of an admitted alert returns false, the whole cooldown
mapping (in particular the entry of the camera) is unchanged; and whenever the
entry of the camera changes, the dispatch outcome was true and the call
reported success — the timestamp is recorded only after a successful dispatch,
never on a suppressed or failed attempt. -/
theorem C2_timestamp (cooldown : Int) (st : CooldownMap) (c : String)
    (ds : List Detection) (now : Int) (o : Bool) :
    (handle_alert cooldown st c ds now false).state = st ∧
    ((handle_alert cooldown st c ds now o).state c ≠ st c →
      o = true ∧ (handle_alert cooldown st c ds now o).sent = true) := by
  unfold handle_alert
  by_cases h : now - (st c).getD 0 < cooldown
  · simp [h]
  · cases o <;> simp [h]

/-- C2 witness: with an empty mapping, camera cam, now = 50 and cooldown 30,
a successful dispatch changes the entry of cam, and the theorem yields that
the outcome was true and the call reported success. -/
theorem C2_witness :
    true = true ∧ (handle_alert 30 stEmpty cam [] 50 true).sent = true :=
  (C2_timestamp 30 stEmpty cam [] 50 true).2 (by decide)

/-- C3 counterexample: the payload built by the code is not the mapping
with key detections claimed by the spec — the code uses the key
ppeDetections instead (src/main.py line 110). -/
theorem C3_counterexample :
    build_alert_payload cam [] ≠ specAlertPayload cam [] := by
  decide

/-- C3 (amended): for every admitted alert with camera id c and detection
list ds, the payload handed to the dispatcher is exactly the mapping with
keys cameraId (value c), status (fixed value new) and ppeDetections (the
ordered sequence of normalized Detection records ds). -/
theorem C3_amended (cooldown : Int) (st : CooldownMap) (c : String)
    (ds : List Detection) (now : Int) (o : Bool)
    (h : (handle_alert cooldown st c ds now o).dispatchCalled = true) :
    (handle_alert cooldown st c ds now o).payloadSent =
      some [(keyCameraId, JsonVal.str c), (keyStatus, JsonVal.str statusNew),
            (keyPpeDetections, JsonVal.detList ds)] := by
  unfold handle_alert at *
  by_cases hg : now - (st c).getD 0 < cooldown
  · simp [hg] at h
  · cases o <;> simp [hg, build_alert_payload] at *

/-- C3 witness: a concrete admitted alert (empty mapping, now = 50, cooldown
30) hands the dispatcher exactly the cameraId/status/ppeDetections payload. -/
theorem C3_witness :
    (handle_alert 30 stEmpty cam [] 50 true).payloadSent =
      some [(keyCameraId, JsonVal.str cam), (keyStatus, JsonVal.str statusNew),
            (keyPpeDetections, JsonVal.detList [])] :=
  C3_amended 30 stEmpty cam [] 50 true (by decide)

/-- C4: the claim requires both transient files to be removed before the
handler returns on every code path, including when a downstream step raises;
but the cleanup loop of analyze_frame is not inside a try/finally, so when the
detector raises the exception propagates first and the saved upload file is
left on disk: on that path the set of remaining files is exactly the saved
temp file. -/
theorem C4_detector_raise_keeps_temp_file :
    (analyze_frame 30 stEmpty [] cam tempJpg (Except.error ()) true annJpg
        100 true).files = [tempJpg] := by
  decide

/-- C5: whenever detection completes with list ds, the handler responds with
exactly the record of cameraId, the detections ds, and alertSent; alertSent
is true exactly when the dispatcher was invoked and its outcome was success,
and the dispatcher is invoked exactly when ds is nonempty and the cooldown
gate admits — in particular a frame with zero detections yields alertSent
false and no outbound call. -/
theorem C5_response_shape (cooldown : Int) (st : CooldownMap) (fs : List String)
    (cameraId tempFile : String) (ds : List Detection) (decodeOk : Bool)
    (newAnnotatedPath : String) (now : Int) (o : Bool) :
    (analyze_frame cooldown st fs cameraId tempFile (Except.ok ds) decodeOk
        newAnnotatedPath now o).response =
      Except.ok (FrameResponse.mk cameraId ds
        ((analyze_frame cooldown st fs cameraId tempFile (Except.ok ds) decodeOk
          newAnnotatedPath now o).dispatchCalled && o)) ∧
    (analyze_frame cooldown st fs cameraId tempFile (Except.ok ds) decodeOk
        newAnnotatedPath now o).dispatchCalled =
      (!ds.isEmpty && decide (cooldown ≤ now - (st cameraId).getD 0)) := by
  unfold analyze_frame handle_alert
  cases ds with
  | nil => simp
  | cons d ds' =>
    by_cases hg : now - (st cameraId).getD 0 < cooldown
    · cases o <;> simp [hg]
    · cases o <;> simp [hg] <;> omega

/-- C6 counterexample: the claim asserts the dispatcher returns true only on
a 2xx response, but raise_for_status only raises for statuses in 400..599,
so a final 304 response makes send_alert return true although 304 is not
2xx. -/
theorem C6_counterexample :
    ¬ (send_alert (HttpOutcome.response 304) = true → is2xx 304 = true) := by
  decide

/-- C6 (amended): the dispatcher returns true iff the POST completed with a
final response whose status is outside raise_for_status's error range
400..599; every 2xx yields true, and every transport error, timeout, or
4xx/5xx status yields false (caught, never raised to the caller, no retry) —
but a non-2xx status below 400 or at 600 and above also yields true. -/
theorem C6_amended (o : HttpOutcome) :
    send_alert o = true ↔
      ∃ s, o = HttpOutcome.response s ∧ (s < 400 ∨ 600 ≤ s) := by
  cases o with
  | transportError => simp [send_alert]
  | response s =>
    simp only [send_alert, raiseForStatusRaises, Bool.not_eq_true']
    simp
    omega

/-- C7: the detection adapter emits, in order, a normalized Detection for
exactly those raw detections whose class label is in the negative-PPE
vocabulary and whose confidence is at least the configured threshold, with
the box in (x, y, width, height) form derived from the corner coordinates as
width = x2 - x1 and height = y2 - y1; every other raw detection is dropped,
and the adapter is a pure function of its input. -/
theorem C7_adapter_filter (threshold : ℚ) (raws : List RawBox) :
    detect_missing_ppe threshold raws =
      (raws.filter (specPasses threshold)).map specNormalize := by
  induction raws with
  | nil => rfl
  | cons b bs ih =>
    simp only [detect_missing_ppe, List.filterMap_cons, List.filter_cons] at *
    cases h : CLASS_TO_PPE.lookup b.clsName with
    | none => simp [detectStep, specPasses, h, ih]
    | some ppe =>
      by_cases hc : threshold ≤ b.conf
      · simp [detectStep, specPasses, specNormalize, h, hc, ge_iff_le, ih]
      · simp [detectStep, specPasses, h, hc, ge_iff_le, ih]

/-- C8: when the annotator cannot decode the input frame, it returns the
original image path unchanged and issues no drawing commands (the failure is
logged; no exception reaches the caller — the function is total), so
annotation failure is non-fatal to the request. -/
theorem C8_decode_failure (imagePath newAnnotatedPath : String)
    (detections : List Detection) :
    draw_bounding_boxes false imagePath newAnnotatedPath detections =
      (imagePath, []) := by
  rfl

/-- C9: with a positive cooldown (the default is 30s), every change of the
cooldown mapping entry of the camera replaces it with the current time, which
is strictly later than the previously stored value (an absent entry being
read as the default 0, i.e. never alerted). -/
theorem C9_monotone (cooldown : Int) (st : CooldownMap) (c : String)
    (ds : List Detection) (now : Int) (o : Bool) (hc : 0 < cooldown)
    (h : (handle_alert cooldown st c ds now o).state c ≠ st c) :
    (handle_alert cooldown st c ds now o).state c = some now ∧
      (st c).getD 0 < now := by
  unfold handle_alert at *
  by_cases hg : now - (st c).getD 0 < cooldown
  · simp [hg] at h
  · cases o with
    | false => simp [hg] at h
    | true =>
      refine ⟨by simp [hg], ?_⟩
      omega

/-- C9 witness: camera cam recorded at time 10, a successful dispatch at
time 50 with cooldown 30 changes the entry, and the new timestamp 50 is
strictly later than the stored value 10. -/
theorem C9_witness :
    (handle_alert 30 stOne cam [] 50 true).state cam = some 50 ∧
      (stOne cam).getD 0 < 50 :=
  C9_monotone 30 stOne cam [] 50 true (by decide) (by decide)

/-- C10: handling one request for camera cameraId leaves the cooldown mapping
entry of every other camera unchanged: at most the single entry of cameraId
is modified. -/
theorem C10_frame_effect (cooldown : Int) (st : CooldownMap) (fs : List String)
    (cameraId tempFile : String) (detectResult : Except Unit (List Detection))
    (decodeOk : Bool) (newAnnotatedPath : String) (now : Int) (o : Bool)
    (c' : String) (h : c' ≠ cameraId) :
    (analyze_frame cooldown st fs cameraId tempFile detectResult decodeOk
        newAnnotatedPath now o).state c' = st c' := by
  unfold analyze_frame handle_alert
  cases detectResult with
  | error e => rfl
  | ok ds =>
    cases ds with
    | nil => simp
    | cons d ds' =>
      by_cases hg : now - (st cameraId).getD 0 < cooldown
      · simp [hg]
      · cases o <;> simp [hg, h]

/-- C10 witness: a full request for camera cam (one detection, admitted and
dispatched successfully) leaves the entry of the distinct camera cam-2
unchanged. -/
theorem C10_witness :
    (analyze_frame 30 stEmpty [] cam tempJpg (Except.ok [sampleDet]) true annJpg
        100 true).state camOther = stEmpty camOther :=
  C10_frame_effect 30 stEmpty [] cam tempJpg (Except.ok [sampleDet]) true annJpg
    100 true camOther (by decide)

end PpeFrames
